import Mathlib

set_option autoImplicit false

set_option linter.unusedVariables false

/-! Verification of the record-store chaincodes of this repository (loan
applications in bankcontract, Pokemon assets, identities in afrazcontract)
against their specification.  The world state and the per-key revision log
supplied by the host ledger platform are modelled explicitly as a sorted
association list plus an append-only commit log; each contract function is
translated from its Go source. -/

/-- Rational stand-in for the Go float64 fields.  No contract performs any
float arithmetic; rate values are only stored and read back, and Go's JSON
encoding round-trips every finite float64 exactly. -/
abbrev Float64 := Rat

/-- LoanApplication record of src/bankcontract/main.go. -/
structure LoanApplication where
  ID : String
  Applicant : String
  Amount : Int
  Term : Int
  InterestRate : Float64
  Status : String
deriving Repr, DecidableEq

/-- Pokemon record of the Pokemon chaincode.  The Go field named Type is a
reserved word in Lean and is rendered as ptype, the name the Go source itself
uses for the corresponding parameter. -/
structure Pokemon where
  ID : String
  Name : String
  ptype : String
  Power : Int
  Trainer : String
  Evolved : Bool
  Location : String
deriving Repr, DecidableEq

/-- Identity record of src/afrazcontract/identitycontract.go.  Every field
defaults to the empty string, the Go zero value taken by the fields that a
struct literal leaves unset. -/
structure Identity where
  ID : String := ""
  Title : String := ""
  FirstName : String := ""
  MiddleName : String := ""
  LastName : String := ""
  NameOnCard : String := ""
  ElevenCharName : String := ""
  CNIC : String := ""
  CNICIssueDate : String := ""
  CNICExpiryDate : String := ""
  OldNIC : String := ""
  PassportNumber : String := ""
  Nationality : String := ""
  PassportIssueDate : String := ""
  PassportExpiryDate : String := ""
  DateOfBirth : String := ""
  PlaceOfBirth : String := ""
  Gender : String := ""
  FatherOrHusbandName : String := ""
  MotherMaidenName : String := ""
  MaritalStatus : String := ""
  Education : String := ""
  PoliticalAffiliation : String := ""
  TaxPayer : String := ""
  Address : String := ""
  Landline : String := ""
  PostalCode : String := ""
  NoOfDependents : String := ""
  NTN : String := ""
  ResidenceType : String := ""
  ApartmentOrHouse : String := ""
  ResidenceNature : String := ""
  MobileNumber : String := ""
deriving Repr, DecidableEq

/-- Serialized record blob: the image of json.Marshal on each record type.
Marshalling is modelled as the corresponding injective constructor (it cannot
fail for these field types), and unmarshalling into a given record shape
succeeds exactly on blobs of that shape. -/
inductive Bytes where
  | loanBytes (l : LoanApplication)
  | pokeBytes (p : Pokemon)
  | identBytes (i : Identity)
deriving Repr, DecidableEq

/-- One entry of the per-key revision log kept by the platform: a value
snapshot written by PutState, or a deletion marker written by DelState, each
carrying the identifier of the writing transaction. -/
inductive KeyMod where
  | put (txId : String) (value : Bytes)
  | del (txId : String)
deriving Repr, DecidableEq

/-- Ledger state backing a chaincode: the live world state, kept sorted by
key so that range scans run in the platform's native lexicographic order,
and the append-only commit log that feeds history queries.  Modelled from
the spec: the storage engine itself is an external collaborator of this
repository, contracted to serve range scans in lexicographic key order and
history queries earliest first. -/
structure Ledger where
  world : List (String × Bytes)
  log : List (String × KeyMod)
deriving Repr, DecidableEq

/-- Ledger with no live values and no revision history. -/
def emptyLedger : Ledger := ⟨[], []⟩

/-- Stub GetState: the live value stored at a key; a nil result (here none)
means the key has no live value.  The stub is modelled as total, so the
infrastructure-error path of GetState does not arise. -/
def getState (L : Ledger) (k : String) : Option Bytes :=
  (L.world.find? (fun p => p.1 == k)).map Prod.snd

/-- Lexicographic comparison of character sequences by character code, the
byte order the reference storage engine sorts keys by. -/
def charListLt : List Char → List Char → Bool
  | [], [] => false
  | [], _ :: _ => true
  | _ :: _, [] => false
  | a :: as, b :: bs =>
    if Nat.blt a.toNat b.toNat then true
    else if Nat.blt b.toNat a.toNat then false
    else charListLt as bs

/-- Lexicographic order on keys. -/
def strLt (a b : String) : Bool := charListLt a.data b.data

/-- Ordered insertion into the world state, replacing any existing entry for
the key: keeps the range-scan order lexicographic over keys. -/
def insertSorted (k : String) (v : Bytes) : List (String × Bytes) → List (String × Bytes)
  | [] => [(k, v)]
  | (k', v') :: rest =>
    if k == k' then (k, v) :: rest
    else if strLt k k' then (k, v) :: (k', v') :: rest
    else (k', v') :: insertSorted k v rest

/-- Stub PutState: writes the blob as the live value for the key and appends
a value revision tagged with the committing transaction identifier. -/
def putState (L : Ledger) (tx k : String) (v : Bytes) : Ledger :=
  ⟨insertSorted k v L.world, L.log ++ [(k, KeyMod.put tx v)]⟩

/-- Stub DelState: clears the live value for the key and appends a tombstone
revision tagged with the deleting transaction identifier. -/
def delState (L : Ledger) (tx k : String) : Ledger :=
  ⟨L.world.filter (fun p => !(p.1 == k)), L.log ++ [(k, KeyMod.del tx)]⟩

/-- Revision sequence of one key, earliest first.  Modelled from the spec:
history indexing is performed by the platform (GetHistoryForKey), which the
spec contracts to produce the ordered revision sequence for the key,
earliest first. -/
def historyForKey (L : Ledger) (k : String) : List KeyMod :=
  (L.log.filter (fun p => p.1 == k)).map Prod.snd

/-- Error values returned by the contract functions, one constructor per
distinct fmt.Errorf message of the source. -/
inductive CCError where
  | loanAlreadyExists (id : String)
  | loanNotFound (id : String)
  | pokemonAlreadyExists (id : String)
  | pokemonNotFound (id : String)
  | pokemonAlreadyEvolved (id : String)
  | identityAlreadyExists (id : String)
  | identityNotFound (id : String)
  | unmarshalFailed
deriving Repr, DecidableEq

/-- Commit discipline of the platform: a transaction whose contract function
returns an error is discarded, leaving the pre-state in force. -/
def txResult (L : Ledger) : Except CCError Ledger → Ledger
  | Except.ok L' => L'
  | Except.error _ => L

/-- Model of json.Marshal on a loan application. -/
def marshalLoan (l : LoanApplication) : Bytes := Bytes.loanBytes l

/-- Model of json.Unmarshal of a blob into a LoanApplication: fails when the
stored bytes do not have that shape. -/
def unmarshalLoan : Bytes → Option LoanApplication
  | Bytes.loanBytes l => some l
  | _ => none

/-- Model of json.Marshal on a Pokemon. -/
def marshalPokemon (p : Pokemon) : Bytes := Bytes.pokeBytes p

/-- Model of json.Unmarshal of a blob into a Pokemon. -/
def unmarshalPokemon : Bytes → Option Pokemon
  | Bytes.pokeBytes p => some p
  | _ => none

/-- Model of json.Marshal on an Identity. -/
def marshalIdentity (i : Identity) : Bytes := Bytes.identBytes i

/-- Model of json.Unmarshal of a blob into an Identity. -/
def unmarshalIdentity : Bytes → Option Identity
  | Bytes.identBytes i => some i
  | _ => none

/-- LoanExists of src/bankcontract/main.go: GetState and test for nil. -/
def LoanExists (L : Ledger) (id : String) : Bool :=
  (getState L id).isSome

/-- CreateLoanApplication of src/bankcontract/main.go: fails when the key
already has a live value, otherwise stores the new record, with Status fixed
to Pending, as the live value under the given id. -/
def CreateLoanApplication (L : Ledger) (tx id applicant : String)
    (amount term : Int) (interestRate : Float64) : Except CCError Ledger :=
  if LoanExists L id then
    Except.error (CCError.loanAlreadyExists id)
  else
    let loan : LoanApplication :=
      { ID := id, Applicant := applicant, Amount := amount, Term := term,
        InterestRate := interestRate, Status := "Pending" }
    Except.ok (putState L tx id (marshalLoan loan))

/-- ReadLoanApplication of src/bankcontract/main.go: fails when the key has
no live value, otherwise deserializes the stored blob. -/
def ReadLoanApplication (L : Ledger) (id : String) : Except CCError LoanApplication :=
  match getState L id with
  | none => Except.error (CCError.loanNotFound id)
  | some b =>
    match unmarshalLoan b with
    | none => Except.error CCError.unmarshalFailed
    | some loan => Except.ok loan

/-- UpdateLoanStatus of src/bankcontract/main.go: reads the current record,
replaces its Status field and writes the result back under the same key. -/
def UpdateLoanStatus (L : Ledger) (tx id newStatus : String) : Except CCError Ledger :=
  match ReadLoanApplication L id with
  | Except.error e => Except.error e
  | Except.ok loan =>
    Except.ok (putState L tx id (marshalLoan { loan with Status := newStatus }))

/-- DeleteLoanApplication of src/bankcontract/main.go: fails when the key has
no live value, otherwise clears it through DelState. -/
def DeleteLoanApplication (L : Ledger) (tx id : String) : Except CCError Ledger :=
  if LoanExists L id then Except.ok (delState L tx id)
  else Except.error (CCError.loanNotFound id)

/-- Helper of GetAllLoanApplications: deserializes every scanned value in
order, aborting on the first blob with the wrong shape. -/
def unmarshalLoans : List (String × Bytes) → Except CCError (List LoanApplication)
  | [] => Except.ok []
  | (_, b) :: rest =>
    match unmarshalLoan b with
    | none => Except.error CCError.unmarshalFailed
    | some loan =>
      match unmarshalLoans rest with
      | Except.error e => Except.error e
      | Except.ok loans => Except.ok (loan :: loans)

/-- GetAllLoanApplications of src/bankcontract/main.go: open range scan over
the whole world state in the store's key order, deserializing every value. -/
def GetAllLoanApplications (L : Ledger) : Except CCError (List LoanApplication) :=
  unmarshalLoans L.world

/-- PokemonExists of the Pokemon chaincode: GetState and test for nil. -/
def PokemonExists (L : Ledger) (id : String) : Bool :=
  (getState L id).isSome

/-- CreatePokemon of the Pokemon chaincode: fails when the key already has a
live value, otherwise stores the new record, with Evolved fixed to false. -/
def CreatePokemon (L : Ledger) (tx id name ptype trainer location : String)
    (power : Int) : Except CCError Ledger :=
  if PokemonExists L id then
    Except.error (CCError.pokemonAlreadyExists id)
  else
    let p : Pokemon :=
      { ID := id, Name := name, ptype := ptype, Power := power,
        Trainer := trainer, Evolved := false, Location := location }
    Except.ok (putState L tx id (marshalPokemon p))

/-- ReadPokemon of the Pokemon chaincode. -/
def ReadPokemon (L : Ledger) (id : String) : Except CCError Pokemon :=
  match getState L id with
  | none => Except.error (CCError.pokemonNotFound id)
  | some b =>
    match unmarshalPokemon b with
    | none => Except.error CCError.unmarshalFailed
    | some p => Except.ok p

/-- UpdatePokemon of the Pokemon chaincode: replaces the Power and Trainer
fields of the stored record. -/
def UpdatePokemon (L : Ledger) (tx id trainer : String) (power : Int) : Except CCError Ledger :=
  match ReadPokemon L id with
  | Except.error e => Except.error e
  | Except.ok p =>
    Except.ok (putState L tx id (marshalPokemon { p with Power := power, Trainer := trainer }))

/-- Two's-complement wrap to the value range of Go's 64-bit signed int,
applied where the Go source performs int arithmetic. -/
def wrap64 (n : Int) : Int := (n + 2 ^ 63) % 2 ^ 64 - 2 ^ 63

/-- EvolvePokemon of the Pokemon chaincode: fails when the stored record is
already evolved, otherwise marks it evolved and adds the fixed 30-point
evolution bonus to Power with Go int addition. -/
def EvolvePokemon (L : Ledger) (tx id : String) : Except CCError Ledger :=
  match ReadPokemon L id with
  | Except.error e => Except.error e
  | Except.ok p =>
    if p.Evolved then Except.error (CCError.pokemonAlreadyEvolved id)
    else
      Except.ok (putState L tx id (marshalPokemon
        { p with Evolved := true, Power := wrap64 (p.Power + 30) }))

/-- DeletePokemon of the Pokemon chaincode: fails when the key has no live
value, otherwise clears it through DelState. -/
def DeletePokemon (L : Ledger) (tx id : String) : Except CCError Ledger :=
  if PokemonExists L id then Except.ok (delState L tx id)
  else Except.error (CCError.pokemonNotFound id)

/-- JSON string quoting used by the textual rendering of blobs. -/
def quoteJson (s : String) : String := "\"" ++ s ++ "\""

/-- Textual JSON rendering of a marshalled Pokemon, field order as in the
struct declaration. -/
def Pokemon.jsonText (p : Pokemon) : String :=
  "\x7b\"id\":" ++ quoteJson p.ID ++ ",\"name\":" ++ quoteJson p.Name ++
  ",\"type\":" ++ quoteJson p.ptype ++ ",\"power\":" ++ toString p.Power ++
  ",\"trainer\":" ++ quoteJson p.Trainer ++
  ",\"evolved\":" ++ (if p.Evolved then "true" else "false") ++
  ",\"location\":" ++ quoteJson p.Location ++ "\x7d"

/-- Textual JSON rendering of a marshalled loan application. -/
def LoanApplication.jsonText (l : LoanApplication) : String :=
  "\x7b\"id\":" ++ quoteJson l.ID ++ ",\"applicant\":" ++ quoteJson l.Applicant ++
  ",\"amount\":" ++ toString l.Amount ++ ",\"term\":" ++ toString l.Term ++
  ",\"interestRate\":" ++ toString l.InterestRate.num ++ "/" ++ toString l.InterestRate.den ++
  ",\"status\":" ++ quoteJson l.Status ++ "\x7d"

/-- Textual JSON rendering of a marshalled identity. -/
def Identity.jsonText (i : Identity) : String :=
  "\x7b\"id\":" ++ quoteJson i.ID ++ ",\"title\":" ++ quoteJson i.Title ++
  ",\"firstName\":" ++ quoteJson i.FirstName ++ ",\"middleName\":" ++ quoteJson i.MiddleName ++
  ",\"lastName\":" ++ quoteJson i.LastName ++ ",\"nameOnCard\":" ++ quoteJson i.NameOnCard ++
  ",\"elevenCharName\":" ++ quoteJson i.ElevenCharName ++ ",\"cnic\":" ++ quoteJson i.CNIC ++
  ",\"cnicIssueDate\":" ++ quoteJson i.CNICIssueDate ++
  ",\"cnicExpiryDate\":" ++ quoteJson i.CNICExpiryDate ++
  ",\"oldNIC\":" ++ quoteJson i.OldNIC ++
  ",\"passportNumber\":" ++ quoteJson i.PassportNumber ++
  ",\"nationality\":" ++ quoteJson i.Nationality ++
  ",\"passportIssueDate\":" ++ quoteJson i.PassportIssueDate ++
  ",\"passportExpiryDate\":" ++ quoteJson i.PassportExpiryDate ++
  ",\"dateOfBirth\":" ++ quoteJson i.DateOfBirth ++
  ",\"placeOfBirth\":" ++ quoteJson i.PlaceOfBirth ++
  ",\"gender\":" ++ quoteJson i.Gender ++
  ",\"fatherOrHusbandName\":" ++ quoteJson i.FatherOrHusbandName ++
  ",\"motherMaidenName\":" ++ quoteJson i.MotherMaidenName ++
  ",\"maritalStatus\":" ++ quoteJson i.MaritalStatus ++
  ",\"education\":" ++ quoteJson i.Education ++
  ",\"politicalAffiliation\":" ++ quoteJson i.PoliticalAffiliation ++
  ",\"taxPayer\":" ++ quoteJson i.TaxPayer ++
  ",\"address\":" ++ quoteJson i.Address ++
  ",\"landline\":" ++ quoteJson i.Landline ++
  ",\"postalCode\":" ++ quoteJson i.PostalCode ++
  ",\"noOfDependents\":" ++ quoteJson i.NoOfDependents ++
  ",\"ntn\":" ++ quoteJson i.NTN ++
  ",\"residenceType\":" ++ quoteJson i.ResidenceType ++
  ",\"apartmentOrHouse\":" ++ quoteJson i.ApartmentOrHouse ++
  ",\"residenceNature\":" ++ quoteJson i.ResidenceNature ++
  ",\"mobileNumber\":" ++ quoteJson i.MobileNumber ++ "\x7d"

/-- Model of string(b) on a blob: the textual JSON of the record. -/
def bytesToString : Bytes → String
  | Bytes.loanBytes l => l.jsonText
  | Bytes.pokeBytes p => p.jsonText
  | Bytes.identBytes i => i.jsonText

/-- GetHistory of the Pokemon chaincode: formats the revision sequence of the
key, one line per revision, tombstones carrying only the deleting transaction
identifier and value revisions carrying the identifier plus the stored
bytes. -/
def GetHistory (L : Ledger) (id : String) : Except CCError (List String) :=
  Except.ok ((historyForKey L id).map (fun m =>
    match m with
    | KeyMod.put tx v => "TxID: " ++ tx ++ ", Data: " ++ bytesToString v
    | KeyMod.del tx => "Deleted at TxID: " ++ tx))

/-- IdentityExists of src/afrazcontract/identitycontract.go. -/
def IdentityExists (L : Ledger) (id : String) : Bool :=
  (getState L id).isSome

/-- CreateIdentity of src/afrazcontract/identitycontract.go: fails when the
key already has a live value, otherwise stores the new record; the fields the
Go struct literal leaves unset keep their zero value. -/
def CreateIdentity (L : Ledger) (tx id title firstName lastName cnic dob gender mobile : String) :
    Except CCError Ledger :=
  if IdentityExists L id then
    Except.error (CCError.identityAlreadyExists id)
  else
    let identity : Identity :=
      { ID := id, Title := title, FirstName := firstName, LastName := lastName,
        CNIC := cnic, DateOfBirth := dob, Gender := gender, MobileNumber := mobile }
    Except.ok (putState L tx id (marshalIdentity identity))

/-- ReadIdentity of src/afrazcontract/identitycontract.go. -/
def ReadIdentity (L : Ledger) (id : String) : Except CCError Identity :=
  match getState L id with
  | none => Except.error (CCError.identityNotFound id)
  | some b =>
    match unmarshalIdentity b with
    | none => Except.error CCError.unmarshalFailed
    | some identity => Except.ok identity

/-- UpdateIdentity of src/afrazcontract/identitycontract.go: fails when the
key has no live value, otherwise reads the record, replaces its MobileNumber
and Address fields and writes it back. -/
def UpdateIdentity (L : Ledger) (tx id mobile address : String) : Except CCError Ledger :=
  if IdentityExists L id then
    match ReadIdentity L id with
    | Except.error e => Except.error e
    | Except.ok identity =>
      Except.ok (putState L tx id (marshalIdentity
        { identity with MobileNumber := mobile, Address := address }))
  else Except.error (CCError.identityNotFound id)

/-- DeleteIdentity of src/afrazcontract/identitycontract.go. -/
def DeleteIdentity (L : Ledger) (tx id : String) : Except CCError Ledger :=
  if IdentityExists L id then Except.ok (delState L tx id)
  else Except.error (CCError.identityNotFound id)

/-- Helper of GetAllIdentities: deserializes every scanned value in order. -/
def unmarshalIdentities : List (String × Bytes) → Except CCError (List Identity)
  | [] => Except.ok []
  | (_, b) :: rest =>
    match unmarshalIdentity b with
    | none => Except.error CCError.unmarshalFailed
    | some identity =>
      match unmarshalIdentities rest with
      | Except.error e => Except.error e
      | Except.ok identities => Except.ok (identity :: identities)

/-- GetAllIdentities of src/afrazcontract/identitycontract.go: open range
scan over the whole world state in the store's key order. -/
def GetAllIdentities (L : Ledger) : Except CCError (List Identity) :=
  unmarshalIdentities L.world

/-- Sample loan record used to instantiate the claim theorems. -/
def sampleLoan : LoanApplication :=
  { ID := "loan1", Applicant := "Afraz", Amount := 10000, Term := 12,
    InterestRate := 11 / 2, Status := "Pending" }

/-- Ledger obtained by creating sampleLoan on the empty ledger. -/
def loanLedger : Ledger :=
  txResult emptyLedger
    (CreateLoanApplication emptyLedger "tx1" "loan1" "Afraz" 10000 12 (11 / 2))

/-- Sample identity record used to instantiate the claim theorems. -/
def sampleIdentity : Identity :=
  { ID := "identity1", Title := "Mr.", FirstName := "John", LastName := "Doe",
    CNIC := "12345-6789012-3", DateOfBirth := "01-01-1980", Gender := "Male",
    MobileNumber := "03001234567" }

/-- Ledger obtained by creating sampleIdentity on the empty ledger. -/
def identityLedger : Ledger :=
  txResult emptyLedger
    (CreateIdentity emptyLedger "tx1" "identity1" "Mr." "John" "Doe"
      "12345-6789012-3" "01-01-1980" "Male" "03001234567")

/-- Sample Pokemon record used to instantiate the claim theorems. -/
def samplePokemon : Pokemon :=
  { ID := "poke1", Name := "Pikachu", ptype := "Electric", Power := 55,
    Trainer := "Ash", Evolved := false, Location := "Pallet Town" }

/-- Ledger obtained by creating samplePokemon on the empty ledger. -/
def pokemonLedger : Ledger :=
  txResult emptyLedger
    (CreatePokemon emptyLedger "tx1" "poke1" "Pikachu" "Electric" "Ash"
      "Pallet Town" 55)

/-- Ledger obtained from pokemonLedger by deleting key poke1. -/
def deletedPokemonLedger : Ledger :=
  txResult pokemonLedger (DeletePokemon pokemonLedger "tx2" "poke1")

/-- Ledger obtained from pokemonLedger by updating poke1. -/
def updatedPokemonLedger : Ledger :=
  txResult pokemonLedger (UpdatePokemon pokemonLedger "tx2" "poke1" "Misty" 60)

/-- Ledger obtained from updatedPokemonLedger by deleting poke1. -/
def historyPokemonLedger : Ledger :=
  txResult updatedPokemonLedger (DeletePokemon updatedPokemonLedger "tx3" "poke1")

/-- Pokemon record created with the largest int64 power value. -/
def maxPokemon : Pokemon :=
  { ID := "poke9", Name := "Mewtwo", ptype := "Psychic",
    Power := 9223372036854775807, Trainer := "Ash", Evolved := false,
    Location := "Kanto" }

/-- Ledger obtained by creating maxPokemon on the empty ledger. -/
def maxPokemonLedger : Ledger :=
  txResult emptyLedger
    (CreatePokemon emptyLedger "tx1" "poke9" "Mewtwo" "Psychic" "Ash" "Kanto"
      9223372036854775807)

/-- Ledger obtained from pokemonLedger by evolving poke1. -/
def evolvedPokemonLedger : Ledger :=
  txResult pokemonLedger (EvolvePokemon pokemonLedger "tx2" "poke1")

/-- Ledger states reachable from the empty ledger through successful create
transactions alone. -/
inductive CreateOnly : Ledger → Prop where
  | empty : CreateOnly emptyLedger
  | loan (L L' : Ledger) (tx id applicant : String) (amount term : Int) (rate : Float64) :
      CreateOnly L →
      CreateLoanApplication L tx id applicant amount term rate = Except.ok L' →
      CreateOnly L'
  | poke (L L' : Ledger) (tx id name ptype trainer location : String) (power : Int) :
      CreateOnly L →
      CreatePokemon L tx id name ptype trainer location power = Except.ok L' →
      CreateOnly L'

/-! Basic lemmas about the modelled stub operations. -/

theorem find_insertSorted_self (k : String) (v : Bytes) (w : List (String × Bytes)) :
    (insertSorted k v w).find? (fun p => p.1 == k) = some (k, v) := by
  induction w with
  | nil => simp [insertSorted]
  | cons hd tl ih =>
    obtain ⟨k', v'⟩ := hd
    by_cases h1 : k = k'
    · subst h1
      simp [insertSorted]
    · by_cases h2 : strLt k k' = true
      · simp [insertSorted, h1, h2]
      · simp [insertSorted, h1, h2, Ne.symm h1, ih]

theorem find_insertSorted_ne (k k' : String) (v : Bytes) (w : List (String × Bytes))
    (h : k' ≠ k) :
    (insertSorted k v w).find? (fun p => p.1 == k') = w.find? (fun p => p.1 == k') := by
  induction w with
  | nil => simp [insertSorted, Ne.symm h]
  | cons hd tl ih =>
    obtain ⟨ka, va⟩ := hd
    by_cases h1 : k = ka
    · subst h1
      simp [insertSorted, Ne.symm h]
    · by_cases h2 : strLt k ka = true
      · simp [insertSorted, h1, h2, Ne.symm h]
      · by_cases h3 : ka = k'
        · subst h3
          simp [insertSorted, h1, h2]
        · simp [insertSorted, h1, h2, h3, ih]

theorem getState_putState_self (L : Ledger) (tx k : String) (v : Bytes) :
    getState (putState L tx k v) k = some v := by
  simp [getState, putState, find_insertSorted_self]

theorem getState_putState_ne (L : Ledger) (tx k k' : String) (v : Bytes) (h : k' ≠ k) :
    getState (putState L tx k v) k' = getState L k' := by
  simp [getState, putState, find_insertSorted_ne k k' v L.world h]

theorem find_filter_self (k : String) (w : List (String × Bytes)) :
    (w.filter (fun p => !(p.1 == k))).find? (fun p => p.1 == k) = none := by
  induction w with
  | nil => rfl
  | cons hd tl ih =>
    obtain ⟨ka, va⟩ := hd
    by_cases h1 : ka = k
    · subst h1
      rw [List.filter_cons_of_neg (by simp)]
      exact ih
    · rw [List.filter_cons_of_pos (by simp [h1])]
      rw [List.find?_cons_of_neg _ (by simp [h1])]
      exact ih

theorem find_filter_ne (k k' : String) (h : k' ≠ k) (w : List (String × Bytes)) :
    (w.filter (fun p => !(p.1 == k))).find? (fun p => p.1 == k')
      = w.find? (fun p => p.1 == k') := by
  induction w with
  | nil => rfl
  | cons hd tl ih =>
    obtain ⟨ka, va⟩ := hd
    by_cases h1 : ka = k
    · subst h1
      rw [List.filter_cons_of_neg (by simp)]
      rw [List.find?_cons_of_neg _ (by simp [Ne.symm h])]
      exact ih
    · rw [List.filter_cons_of_pos (by simp [h1])]
      by_cases h2 : ka = k'
      · subst h2
        rw [List.find?_cons_of_pos _ (by simp), List.find?_cons_of_pos _ (by simp)]
      · rw [List.find?_cons_of_neg _ (by simp [h2]), List.find?_cons_of_neg _ (by simp [h2])]
        exact ih

theorem getState_delState_self (L : Ledger) (tx k : String) :
    getState (delState L tx k) k = none := by
  simp only [getState, delState]
  rw [find_filter_self]
  rfl

theorem getState_delState_ne (L : Ledger) (tx k k' : String) (h : k' ≠ k) :
    getState (delState L tx k) k' = getState L k' := by
  simp only [getState, delState]
  rw [find_filter_ne k k' h]

theorem historyForKey_putState_self (L : Ledger) (tx k : String) (v : Bytes) :
    historyForKey (putState L tx k v) k = historyForKey L k ++ [KeyMod.put tx v] := by
  simp [historyForKey, putState]

theorem historyForKey_putState_ne (L : Ledger) (tx k k' : String) (v : Bytes) (h : k' ≠ k) :
    historyForKey (putState L tx k v) k' = historyForKey L k' := by
  simp [historyForKey, putState, Ne.symm h]

theorem historyForKey_delState_self (L : Ledger) (tx k : String) :
    historyForKey (delState L tx k) k = historyForKey L k ++ [KeyMod.del tx] := by
  simp [historyForKey, delState]

theorem historyForKey_delState_ne (L : Ledger) (tx k k' : String) (h : k' ≠ k) :
    historyForKey (delState L tx k) k' = historyForKey L k' := by
  simp [historyForKey, delState, Ne.symm h]

theorem LoanExists_false_iff (L : Ledger) (id : String) :
    LoanExists L id = false ↔ getState L id = none := by
  unfold LoanExists
  cases getState L id <;> simp

theorem PokemonExists_false_iff (L : Ledger) (id : String) :
    PokemonExists L id = false ↔ getState L id = none := by
  unfold PokemonExists
  cases getState L id <;> simp

theorem IdentityExists_false_iff (L : Ledger) (id : String) :
    IdentityExists L id = false ↔ getState L id = none := by
  unfold IdentityExists
  cases getState L id <;> simp

theorem txResult_ok (L L' : Ledger) : txResult L (Except.ok L') = L' := rfl

theorem txResult_error (L : Ledger) (e : CCError) : txResult L (Except.error e) = L := rfl

theorem CreateLoanApplication_ok (L : Ledger) (tx id applicant : String)
    (amount term : Int) (rate : Float64) (h : LoanExists L id = false) :
    CreateLoanApplication L tx id applicant amount term rate
      = Except.ok (putState L tx id (marshalLoan
          { ID := id, Applicant := applicant, Amount := amount, Term := term,
            InterestRate := rate, Status := "Pending" })) := by
  simp [CreateLoanApplication, h]

theorem CreatePokemon_ok (L : Ledger) (tx id name ptype trainer location : String)
    (power : Int) (h : PokemonExists L id = false) :
    CreatePokemon L tx id name ptype trainer location power
      = Except.ok (putState L tx id (marshalPokemon
          { ID := id, Name := name, ptype := ptype, Power := power,
            Trainer := trainer, Evolved := false, Location := location })) := by
  simp [CreatePokemon, h]

theorem CreateIdentity_ok (L : Ledger) (tx id title firstName lastName cnic dob gender mobile : String)
    (h : IdentityExists L id = false) :
    CreateIdentity L tx id title firstName lastName cnic dob gender mobile
      = Except.ok (putState L tx id (marshalIdentity
          { ID := id, Title := title, FirstName := firstName, LastName := lastName,
            CNIC := cnic, DateOfBirth := dob, Gender := gender, MobileNumber := mobile })) := by
  simp [CreateIdentity, h]

theorem ReadPokemon_of_stored (L : Ledger) (id : String) (p : Pokemon)
    (h : getState L id = some (Bytes.pokeBytes p)) :
    ReadPokemon L id = Except.ok p := by
  simp [ReadPokemon, h, unmarshalPokemon]

theorem UpdatePokemon_ok (L : Ledger) (tx id trainer : String) (power : Int) (p : Pokemon)
    (h : getState L id = some (Bytes.pokeBytes p)) :
    UpdatePokemon L tx id trainer power
      = Except.ok (putState L tx id (marshalPokemon
          { p with Power := power, Trainer := trainer })) := by
  simp [UpdatePokemon, ReadPokemon_of_stored L id p h]

theorem DeletePokemon_ok (L : Ledger) (tx id : String) (h : PokemonExists L id = true) :
    DeletePokemon L tx id = Except.ok (delState L tx id) := by
  simp [DeletePokemon, h]

theorem DeleteLoanApplication_ok (L : Ledger) (tx id : String) (h : LoanExists L id = true) :
    DeleteLoanApplication L tx id = Except.ok (delState L tx id) := by
  simp [DeleteLoanApplication, h]

/-- C1: on a key that already holds a live value, CreateLoanApplication and
CreateIdentity fail with the already-exists error and the discarded
transaction leaves the whole store unchanged; on a key with no live value
they succeed and write the serialized record as the live value of exactly
that key. -/
theorem C1_create_requires_absent_key (L : Ledger)
    (tx id applicant title firstName lastName cnic dob gender mobile : String)
    (amount term : Int) (rate : Float64) :
    (LoanExists L id = true →
      CreateLoanApplication L tx id applicant amount term rate
        = Except.error (CCError.loanAlreadyExists id)
      ∧ txResult L (CreateLoanApplication L tx id applicant amount term rate) = L)
  ∧ (LoanExists L id = false →
      CreateLoanApplication L tx id applicant amount term rate
        = Except.ok (putState L tx id (marshalLoan
            { ID := id, Applicant := applicant, Amount := amount, Term := term,
              InterestRate := rate, Status := "Pending" }))
      ∧ getState (txResult L (CreateLoanApplication L tx id applicant amount term rate)) id
          = some (marshalLoan
            { ID := id, Applicant := applicant, Amount := amount, Term := term,
              InterestRate := rate, Status := "Pending" })
      ∧ ∀ k, k ≠ id →
          getState (txResult L (CreateLoanApplication L tx id applicant amount term rate)) k
            = getState L k)
  ∧ (IdentityExists L id = true →
      CreateIdentity L tx id title firstName lastName cnic dob gender mobile
        = Except.error (CCError.identityAlreadyExists id)
      ∧ txResult L (CreateIdentity L tx id title firstName lastName cnic dob gender mobile) = L)
  ∧ (IdentityExists L id = false →
      CreateIdentity L tx id title firstName lastName cnic dob gender mobile
        = Except.ok (putState L tx id (marshalIdentity
            { ID := id, Title := title, FirstName := firstName, LastName := lastName,
              CNIC := cnic, DateOfBirth := dob, Gender := gender, MobileNumber := mobile }))
      ∧ getState (txResult L (CreateIdentity L tx id title firstName lastName cnic dob gender mobile)) id
          = some (marshalIdentity
            { ID := id, Title := title, FirstName := firstName, LastName := lastName,
              CNIC := cnic, DateOfBirth := dob, Gender := gender, MobileNumber := mobile })
      ∧ ∀ k, k ≠ id →
          getState (txResult L (CreateIdentity L tx id title firstName lastName cnic dob gender mobile)) k
            = getState L k) := by
  refine ⟨fun h => ⟨?_, ?_⟩, fun h => ⟨?_, ?_, ?_⟩, fun h => ⟨?_, ?_⟩, fun h => ⟨?_, ?_, ?_⟩⟩
  · simp [CreateLoanApplication, h]
  · simp [CreateLoanApplication, h, txResult]
  · exact CreateLoanApplication_ok L tx id applicant amount term rate h
  · rw [CreateLoanApplication_ok L tx id applicant amount term rate h, txResult_ok]
    exact getState_putState_self _ _ _ _
  · intro k hk
    rw [CreateLoanApplication_ok L tx id applicant amount term rate h, txResult_ok]
    exact getState_putState_ne _ _ _ _ _ hk
  · simp [CreateIdentity, h]
  · simp [CreateIdentity, h, txResult]
  · exact CreateIdentity_ok L tx id title firstName lastName cnic dob gender mobile h
  · rw [CreateIdentity_ok L tx id title firstName lastName cnic dob gender mobile h, txResult_ok]
    exact getState_putState_self _ _ _ _
  · intro k hk
    rw [CreateIdentity_ok L tx id title firstName lastName cnic dob gender mobile h, txResult_ok]
    exact getState_putState_ne _ _ _ _ _ hk

/-- C1 witness: concrete instantiation on a ledger holding sampleLoan and on
the empty ledger. -/
theorem C1_create_requires_absent_key_witness :
    CreateLoanApplication loanLedger "tx2" "loan1" "Bob" 1 2 3
      = Except.error (CCError.loanAlreadyExists "loan1")
  ∧ txResult loanLedger (CreateLoanApplication loanLedger "tx2" "loan1" "Bob" 1 2 3) = loanLedger
  ∧ CreateIdentity emptyLedger "tx1" "identity1" "Mr." "John" "Doe"
      "12345-6789012-3" "01-01-1980" "Male" "03001234567"
      = Except.ok (putState emptyLedger "tx1" "identity1" (marshalIdentity sampleIdentity)) := by
  have h1 := (C1_create_requires_absent_key loanLedger "tx2" "loan1" "Bob" "t" "f" "l" "c" "d" "g" "m" 1 2 3).1 (by decide)
  have h2 := (C1_create_requires_absent_key emptyLedger "tx1" "identity1" "a" "Mr." "John" "Doe"
      "12345-6789012-3" "01-01-1980" "Male" "03001234567" 1 2 3).2.2.2 (by decide)
  exact ⟨h1.1, h1.2, h2.1⟩

/-- C2: after a successful CreateLoanApplication, ReadLoanApplication of the
same key returns exactly the record that create serialized (same id,
applicant, amount, term, interest rate and the initial Pending status), and
deserialization inverts serialization on every record. -/
theorem C2_create_then_read (L L' : Ledger) (tx id applicant : String)
    (amount term : Int) (rate : Float64)
    (hc : CreateLoanApplication L tx id applicant amount term rate = Except.ok L') :
    ReadLoanApplication L' id
      = Except.ok { ID := id, Applicant := applicant, Amount := amount,
                    Term := term, InterestRate := rate, Status := "Pending" }
  ∧ ∀ l : LoanApplication, unmarshalLoan (marshalLoan l) = some l := by
  by_cases h : LoanExists L id
  · rw [CreateLoanApplication, if_pos h] at hc
    exact absurd hc (by simp)
  · rw [CreateLoanApplication_ok L tx id applicant amount term rate (by simpa using h)] at hc
    injection hc with hc
    subst hc
    constructor
    · rw [ReadLoanApplication, getState_putState_self]
      rfl
    · intro l
      rfl

/-- C2 witness: concrete creation of sampleLoan on the empty ledger. -/
theorem C2_create_then_read_witness :
    ReadLoanApplication
        (putState emptyLedger "tx1" "loan1" (marshalLoan sampleLoan)) "loan1"
      = Except.ok sampleLoan
  ∧ unmarshalLoan (marshalLoan sampleLoan) = some sampleLoan := by
  have h := C2_create_then_read emptyLedger
      (putState emptyLedger "tx1" "loan1" (marshalLoan sampleLoan))
      "tx1" "loan1" "Afraz" 10000 12 (11 / 2) rfl
  exact ⟨h.1, h.2 sampleLoan⟩

/-- C3: on a key with no live value, ReadLoanApplication, UpdateLoanStatus,
UpdateIdentity and DeleteLoanApplication all fail with the not-found error;
the discarded transactions leave the store unchanged, and in particular
update never creates the key. -/
theorem C3_notfound_on_dead_key (L : Ledger) (tx k s mobile address : String)
    (h : getState L k = none) :
    ReadLoanApplication L k = Except.error (CCError.loanNotFound k)
  ∧ UpdateLoanStatus L tx k s = Except.error (CCError.loanNotFound k)
  ∧ DeleteLoanApplication L tx k = Except.error (CCError.loanNotFound k)
  ∧ UpdateIdentity L tx k mobile address = Except.error (CCError.identityNotFound k)
  ∧ txResult L (UpdateLoanStatus L tx k s) = L
  ∧ getState (txResult L (UpdateLoanStatus L tx k s)) k = none
  ∧ txResult L (UpdateIdentity L tx k mobile address) = L
  ∧ getState (txResult L (UpdateIdentity L tx k mobile address)) k = none := by
  have hr : ReadLoanApplication L k = Except.error (CCError.loanNotFound k) := by
    rw [ReadLoanApplication, h]
  have hu : UpdateLoanStatus L tx k s = Except.error (CCError.loanNotFound k) := by
    rw [UpdateLoanStatus, hr]
  have hd : DeleteLoanApplication L tx k = Except.error (CCError.loanNotFound k) := by
    rw [DeleteLoanApplication, if_neg]
    simp [LoanExists, h]
  have hui : UpdateIdentity L tx k mobile address
      = Except.error (CCError.identityNotFound k) := by
    rw [UpdateIdentity, if_neg]
    simp [IdentityExists, h]
  refine ⟨hr, hu, hd, hui, ?_, ?_, ?_, ?_⟩
  · rw [hu, txResult_error]
  · rw [hu, txResult_error]
    exact h
  · rw [hui, txResult_error]
  · rw [hui, txResult_error]
    exact h

/-- C3 witness: concrete instantiation on the empty ledger. -/
theorem C3_notfound_on_dead_key_witness :
    ReadLoanApplication emptyLedger "loan9" = Except.error (CCError.loanNotFound "loan9")
  ∧ UpdateLoanStatus emptyLedger "tx1" "loan9" "Approved"
      = Except.error (CCError.loanNotFound "loan9")
  ∧ DeleteLoanApplication emptyLedger "tx1" "loan9"
      = Except.error (CCError.loanNotFound "loan9")
  ∧ UpdateIdentity emptyLedger "tx1" "loan9" "0300" "addr"
      = Except.error (CCError.identityNotFound "loan9")
  ∧ getState (txResult emptyLedger (UpdateLoanStatus emptyLedger "tx1" "loan9" "Approved")) "loan9"
      = none := by
  have h := C3_notfound_on_dead_key emptyLedger "tx1" "loan9" "Approved" "0300" "addr" rfl
  exact ⟨h.1, h.2.1, h.2.2.1, h.2.2.2.1, h.2.2.2.2.2.1⟩

/-- C4: after a successful create of a key followed by a successful delete of
it, the key has no live value: exists returns false, read fails with the
not-found error, a second delete fails with the not-found error, and only
that key's live value was cleared. -/
theorem C4_delete_clears_exactly_key (L L1 L2 : Ledger)
    (tx1 tx2 tx3 id name ptype trainer location : String) (power : Int)
    (hc : CreatePokemon L tx1 id name ptype trainer location power = Except.ok L1)
    (hd : DeletePokemon L1 tx2 id = Except.ok L2) :
    PokemonExists L2 id = false
  ∧ ReadPokemon L2 id = Except.error (CCError.pokemonNotFound id)
  ∧ DeletePokemon L2 tx3 id = Except.error (CCError.pokemonNotFound id)
  ∧ ∀ k, k ≠ id → getState L2 k = getState L1 k := by
  cases he : PokemonExists L1 id with
  | false =>
    rw [DeletePokemon, if_neg (by simp [he])] at hd
    exact absurd hd (by simp)
  | true =>
    rw [DeletePokemon_ok L1 tx2 id he] at hd
    injection hd with hd
    subst hd
    have hgone : getState (delState L1 tx2 id) id = none := getState_delState_self L1 tx2 id
    refine ⟨?_, ?_, ?_, ?_⟩
    · simp [PokemonExists, hgone]
    · rw [ReadPokemon, hgone]
    · rw [DeletePokemon, if_neg (by simp [PokemonExists, hgone])]
    · intro k hk
      exact getState_delState_ne L1 tx2 id k hk

/-- C4 witness: create then delete of poke1 on the empty ledger. -/
theorem C4_delete_clears_exactly_key_witness :
    PokemonExists deletedPokemonLedger "poke1" = false
  ∧ ReadPokemon deletedPokemonLedger "poke1"
      = Except.error (CCError.pokemonNotFound "poke1")
  ∧ DeletePokemon deletedPokemonLedger "tx3" "poke1"
      = Except.error (CCError.pokemonNotFound "poke1")
  ∧ getState deletedPokemonLedger "poke2" = getState pokemonLedger "poke2" := by
  have h := C4_delete_clears_exactly_key emptyLedger pokemonLedger deletedPokemonLedger
      "tx1" "tx2" "tx3" "poke1" "Pikachu" "Electric" "Ash" "Pallet Town" 55 rfl rfl
  exact ⟨h.1, h.2.1, h.2.2.1, h.2.2.2 "poke2" (by decide)⟩

theorem CreatePokemon_ok_inv (L L' : Ledger)
    (tx id name ptype trainer location : String) (power : Int)
    (h : CreatePokemon L tx id name ptype trainer location power = Except.ok L') :
    PokemonExists L id = false
  ∧ L' = putState L tx id (marshalPokemon
      { ID := id, Name := name, ptype := ptype, Power := power,
        Trainer := trainer, Evolved := false, Location := location }) := by
  cases he : PokemonExists L id with
  | true =>
    rw [CreatePokemon, if_pos he] at h
    exact absurd h (by simp)
  | false =>
    rw [CreatePokemon_ok L tx id name ptype trainer location power he] at h
    injection h with h
    exact ⟨rfl, h.symm⟩

theorem UpdatePokemon_ok_inv (L L' : Ledger) (tx id trainer : String) (power : Int)
    (p : Pokemon) (hs : getState L id = some (Bytes.pokeBytes p))
    (h : UpdatePokemon L tx id trainer power = Except.ok L') :
    L' = putState L tx id (marshalPokemon { p with Power := power, Trainer := trainer }) := by
  rw [UpdatePokemon_ok L tx id trainer power p hs] at h
  injection h with h
  exact h.symm

theorem DeletePokemon_ok_inv (L L' : Ledger) (tx id : String)
    (h : DeletePokemon L tx id = Except.ok L') : L' = delState L tx id := by
  cases he : PokemonExists L id with
  | false =>
    rw [DeletePokemon, if_neg (by simp [he])] at h
    exact absurd h (by simp)
  | true =>
    rw [DeletePokemon, if_pos he] at h
    injection h with h
    exact h.symm

/-- C5: after create, update, delete of a key with no earlier revisions, the
reported history of that key is exactly three entries, earliest first: the
created value, the updated value, then a tombstone that carries only the
deleting transaction identifier, while each value entry carries the writing
transaction identifier together with the stored bytes. -/
theorem C5_history_earliest_first (L L1 L2 L3 : Ledger)
    (tx1 tx2 tx3 id name ptype trainer trainer2 location : String)
    (power power2 : Int)
    (hh : historyForKey L id = [])
    (hc : CreatePokemon L tx1 id name ptype trainer location power = Except.ok L1)
    (hu : UpdatePokemon L1 tx2 id trainer2 power2 = Except.ok L2)
    (hd : DeletePokemon L2 tx3 id = Except.ok L3) :
    GetHistory L3 id = Except.ok
      [ "TxID: " ++ tx1 ++ ", Data: " ++ Pokemon.jsonText
          { ID := id, Name := name, ptype := ptype, Power := power,
            Trainer := trainer, Evolved := false, Location := location },
        "TxID: " ++ tx2 ++ ", Data: " ++ Pokemon.jsonText
          { ID := id, Name := name, ptype := ptype, Power := power2,
            Trainer := trainer2, Evolved := false, Location := location },
        "Deleted at TxID: " ++ tx3 ] := by
  obtain ⟨he, hL1⟩ := CreatePokemon_ok_inv L L1 tx1 id name ptype trainer location power hc
  subst hL1
  have hs1 : getState (putState L tx1 id (marshalPokemon
      { ID := id, Name := name, ptype := ptype, Power := power,
        Trainer := trainer, Evolved := false, Location := location })) id
      = some (Bytes.pokeBytes
      { ID := id, Name := name, ptype := ptype, Power := power,
        Trainer := trainer, Evolved := false, Location := location }) :=
    getState_putState_self _ _ _ _
  have hL2 := UpdatePokemon_ok_inv _ L2 tx2 id trainer2 power2 _ hs1 hu
  subst hL2
  have hL3 := DeletePokemon_ok_inv _ L3 tx3 id hd
  subst hL3
  rw [GetHistory, historyForKey_delState_self, historyForKey_putState_self,
    historyForKey_putState_self, hh]
  rfl

/-- C5 witness: create, update, delete of poke1 on the empty ledger. -/
theorem C5_history_earliest_first_witness :
    GetHistory historyPokemonLedger "poke1" = Except.ok
      [ "TxID: " ++ "tx1" ++ ", Data: " ++ Pokemon.jsonText samplePokemon,
        "TxID: " ++ "tx2" ++ ", Data: " ++ Pokemon.jsonText
          { samplePokemon with Power := 60, Trainer := "Misty" },
        "Deleted at TxID: " ++ "tx3" ] := by
  have h := C5_history_earliest_first emptyLedger pokemonLedger updatedPokemonLedger
      historyPokemonLedger "tx1" "tx2" "tx3" "poke1" "Pikachu" "Electric" "Ash"
      "Misty" "Pallet Town" 55 60 rfl rfl rfl rfl
  exact h

/-- C6: the full range scans return exactly the currently-live records.
After creating keys a, b, c and deleting b, GetAllLoanApplications and
GetAllIdentities yield exactly the records of keys a and c, each exactly
once and in the store's key order, and no record of the deleted key b. -/
theorem C6_listAll_returns_exactly_live (appA appB appC : String)
    (amtA amtB amtC termA termB termC : Int) (rateA rateB rateC : Float64)
    (titleA titleB titleC fnA fnB fnC lnA lnB lnC cnicA cnicB cnicC : String)
    (dobA dobB dobC genA genB genC mobA mobB mobC : String) :
    (let La1 := txResult emptyLedger
        (CreateLoanApplication emptyLedger "tx1" "a" appA amtA termA rateA)
     let La2 := txResult La1 (CreateLoanApplication La1 "tx2" "b" appB amtB termB rateB)
     let La3 := txResult La2 (CreateLoanApplication La2 "tx3" "c" appC amtC termC rateC)
     let La4 := txResult La3 (DeleteLoanApplication La3 "tx4" "b")
     GetAllLoanApplications La4 = Except.ok
       [ { ID := "a", Applicant := appA, Amount := amtA, Term := termA,
           InterestRate := rateA, Status := "Pending" },
         { ID := "c", Applicant := appC, Amount := amtC, Term := termC,
           InterestRate := rateC, Status := "Pending" } ])
  ∧ (let Lb1 := txResult emptyLedger
        (CreateIdentity emptyLedger "tx1" "a" titleA fnA lnA cnicA dobA genA mobA)
     let Lb2 := txResult Lb1 (CreateIdentity Lb1 "tx2" "b" titleB fnB lnB cnicB dobB genB mobB)
     let Lb3 := txResult Lb2 (CreateIdentity Lb2 "tx3" "c" titleC fnC lnC cnicC dobC genC mobC)
     let Lb4 := txResult Lb3 (DeleteIdentity Lb3 "tx4" "b")
     GetAllIdentities Lb4 = Except.ok
       [ { ID := "a", Title := titleA, FirstName := fnA, LastName := lnA,
           CNIC := cnicA, DateOfBirth := dobA, Gender := genA, MobileNumber := mobA },
         { ID := "c", Title := titleC, FirstName := fnC, LastName := lnC,
           CNIC := cnicC, DateOfBirth := dobC, Gender := genC, MobileNumber := mobC } ]) := by
  exact ⟨rfl, rfl⟩

/-- C7 (amended): for a live Pokemon record p, EvolvePokemon fails with the
already-evolved error when p.Evolved is true and the discarded transaction
leaves the store unchanged; when p.Evolved is false it succeeds, sets
Evolved to true, replaces Power by the Go 64-bit signed sum of Power and 30,
which equals Power plus exactly 30 whenever that sum stays in int64 range,
and leaves all other fields and all other keys unchanged. -/
theorem C7_evolve_semantics (L : Ledger) (tx id : String) (p : Pokemon)
    (h : getState L id = some (Bytes.pokeBytes p)) :
    (p.Evolved = true →
      EvolvePokemon L tx id = Except.error (CCError.pokemonAlreadyEvolved id)
      ∧ txResult L (EvolvePokemon L tx id) = L)
  ∧ (p.Evolved = false →
      EvolvePokemon L tx id = Except.ok (putState L tx id (marshalPokemon
        { p with Evolved := true, Power := wrap64 (p.Power + 30) }))
      ∧ getState (txResult L (EvolvePokemon L tx id)) id
          = some (Bytes.pokeBytes { p with Evolved := true, Power := wrap64 (p.Power + 30) })
      ∧ ∀ k, k ≠ id → getState (txResult L (EvolvePokemon L tx id)) k = getState L k)
  ∧ (-(2 ^ 63) ≤ p.Power → p.Power + 30 < 2 ^ 63 →
      wrap64 (p.Power + 30) = p.Power + 30) := by
  have hr : ReadPokemon L id = Except.ok p := ReadPokemon_of_stored L id p h
  refine ⟨fun hE => ?_, fun hE => ?_, fun h1 h2 => ?_⟩
  · constructor
    · simp [EvolvePokemon, hr, hE]
    · simp [EvolvePokemon, hr, hE, txResult]
  · have hok : EvolvePokemon L tx id = Except.ok (putState L tx id (marshalPokemon
        { p with Evolved := true, Power := wrap64 (p.Power + 30) })) := by
      simp [EvolvePokemon, hr, hE]
    refine ⟨hok, ?_, ?_⟩
    · rw [hok, txResult_ok]
      exact getState_putState_self _ _ _ _
    · intro k hk
      rw [hok, txResult_ok]
      exact getState_putState_ne _ _ _ _ _ hk
  · have e1 : (2 : Int) ^ 63 = 9223372036854775808 := by norm_num
    have e2 : (2 : Int) ^ 64 = 18446744073709551616 := by norm_num
    unfold wrap64
    rw [e1, e2]
    rw [e1] at h1 h2
    omega

/-- C7 witness: evolving the unevolved Pikachu succeeds with the 30-point
bonus, a second evolve fails with the already-evolved error. -/
theorem C7_evolve_semantics_witness :
    EvolvePokemon pokemonLedger "tx2" "poke1"
      = Except.ok (putState pokemonLedger "tx2" "poke1" (marshalPokemon
          { samplePokemon with
            Evolved := true, Power := wrap64 (samplePokemon.Power + 30) }))
  ∧ EvolvePokemon evolvedPokemonLedger "tx3" "poke1"
      = Except.error (CCError.pokemonAlreadyEvolved "poke1")
  ∧ wrap64 (samplePokemon.Power + 30) = samplePokemon.Power + 30 := by
  have h1 := C7_evolve_semantics pokemonLedger "tx2" "poke1" samplePokemon rfl
  have h2 := C7_evolve_semantics evolvedPokemonLedger "tx3" "poke1"
      { samplePokemon with
        Evolved := true, Power := wrap64 (samplePokemon.Power + 30) } rfl
  exact ⟨(h1.2.1 rfl).1, (h2.1 rfl).1, h1.2.2 (by decide) (by decide)⟩

/-- C7 counterexample: a live Pokemon created with the maximal int64 power
is not evolved, yet evolving it does not increase Power by 30: the Go int
addition wraps and Power becomes negative. -/
theorem C7_evolve_counterexample :
    getState maxPokemonLedger "poke9" = some (Bytes.pokeBytes maxPokemon)
  ∧ maxPokemon.Evolved = false
  ∧ EvolvePokemon maxPokemonLedger "tx2" "poke9"
      = Except.ok (putState maxPokemonLedger "tx2" "poke9" (marshalPokemon
          { maxPokemon with Evolved := true, Power := -9223372036854775779 }))
  ∧ (-9223372036854775779 : Int) ≠ maxPokemon.Power + 30 := by
  exact ⟨rfl, rfl, rfl, by decide⟩

/-- C8: UpdateLoanStatus on a live key rewrites exactly the Status field of
that key's record, leaving all other fields of the record and the values of
all other keys unchanged. -/
theorem C8_update_status_frame (L : Ledger) (tx id s : String) (r : LoanApplication)
    (h : getState L id = some (Bytes.loanBytes r)) :
    UpdateLoanStatus L tx id s
      = Except.ok (putState L tx id (marshalLoan { r with Status := s }))
  ∧ getState (txResult L (UpdateLoanStatus L tx id s)) id
      = some (marshalLoan { r with Status := s })
  ∧ ({ r with Status := s } : LoanApplication).Status = s
  ∧ ({ r with Status := s } : LoanApplication).ID = r.ID
  ∧ ({ r with Status := s } : LoanApplication).Applicant = r.Applicant
  ∧ ({ r with Status := s } : LoanApplication).Amount = r.Amount
  ∧ ({ r with Status := s } : LoanApplication).Term = r.Term
  ∧ ({ r with Status := s } : LoanApplication).InterestRate = r.InterestRate
  ∧ ∀ k, k ≠ id → getState (txResult L (UpdateLoanStatus L tx id s)) k = getState L k := by
  have hok : UpdateLoanStatus L tx id s
      = Except.ok (putState L tx id (marshalLoan { r with Status := s })) := by
    simp [UpdateLoanStatus, ReadLoanApplication, h, unmarshalLoan]
  refine ⟨hok, ?_, rfl, rfl, rfl, rfl, rfl, rfl, ?_⟩
  · rw [hok, txResult_ok]
    exact getState_putState_self _ _ _ _
  · intro k hk
    rw [hok, txResult_ok]
    exact getState_putState_ne _ _ _ _ _ hk

/-- C8 witness: approving sampleLoan on the ledger that holds it. -/
theorem C8_update_status_frame_witness :
    UpdateLoanStatus loanLedger "tx2" "loan1" "Approved"
      = Except.ok (putState loanLedger "tx2" "loan1"
          (marshalLoan { sampleLoan with Status := "Approved" }))
  ∧ ({ sampleLoan with Status := "Approved" } : LoanApplication).Amount
      = sampleLoan.Amount := by
  have h := C8_update_status_frame loanLedger "tx2" "loan1" "Approved" sampleLoan rfl
  exact ⟨h.1, h.2.2.2.2.2.1⟩

theorem CreateLoanApplication_ok_inv (L L' : Ledger) (tx id applicant : String)
    (amount term : Int) (rate : Float64)
    (h : CreateLoanApplication L tx id applicant amount term rate = Except.ok L') :
    LoanExists L id = false
  ∧ L' = putState L tx id (marshalLoan
      { ID := id, Applicant := applicant, Amount := amount, Term := term,
        InterestRate := rate, Status := "Pending" }) := by
  cases he : LoanExists L id with
  | true =>
    rw [CreateLoanApplication, if_pos he] at h
    exact absurd h (by simp)
  | false =>
    rw [CreateLoanApplication_ok L tx id applicant amount term rate he] at h
    injection h with h
    exact ⟨rfl, h.symm⟩

/-- C9: every record written by a successful CreateLoanApplication has
Status Pending and every record written by a successful CreatePokemon has
Evolved false, whatever the caller passed; hence in every ledger reachable
through create transactions alone, every stored loan has Status Pending and
every stored Pokemon has Evolved false. -/
theorem C9_create_fixes_initial_fields (L L' M : Ledger)
    (tx id applicant name ptype trainer location : String)
    (amount term power : Int) (rate : Float64) :
    (CreateLoanApplication L tx id applicant amount term rate = Except.ok L' →
      getState L' id = some (Bytes.loanBytes
        { ID := id, Applicant := applicant, Amount := amount, Term := term,
          InterestRate := rate, Status := "Pending" }))
  ∧ (CreatePokemon L tx id name ptype trainer location power = Except.ok L' →
      getState L' id = some (Bytes.pokeBytes
        { ID := id, Name := name, ptype := ptype, Power := power,
          Trainer := trainer, Evolved := false, Location := location }))
  ∧ (CreateOnly M →
      ∀ k, (∀ r, getState M k = some (Bytes.loanBytes r) → r.Status = "Pending")
         ∧ (∀ p, getState M k = some (Bytes.pokeBytes p) → p.Evolved = false)) := by
  refine ⟨fun hc => ?_, fun hc => ?_, fun hM => ?_⟩
  · obtain ⟨-, hL⟩ := CreateLoanApplication_ok_inv L L' tx id applicant amount term rate hc
    subst hL
    exact getState_putState_self _ _ _ _
  · obtain ⟨-, hL⟩ := CreatePokemon_ok_inv L L' tx id name ptype trainer location power hc
    subst hL
    exact getState_putState_self _ _ _ _
  · induction hM with
    | empty =>
      intro k
      constructor
      · intro r hr
        simp [getState, emptyLedger] at hr
      · intro p hp
        simp [getState, emptyLedger] at hp
    | loan L0 L0' tx0 id0 app0 amt0 term0 rate0 hC hok ih =>
      obtain ⟨-, hL⟩ := CreateLoanApplication_ok_inv L0 L0' tx0 id0 app0 amt0 term0 rate0 hok
      subst hL
      intro k
      by_cases hk : k = id0
      · subst hk
        constructor
        · intro r hr
          rw [getState_putState_self] at hr
          simp only [marshalLoan, Option.some.injEq, Bytes.loanBytes.injEq] at hr
          subst hr
          rfl
        · intro p hp
          rw [getState_putState_self] at hp
          simp [marshalLoan] at hp
      · constructor
        · intro r hr
          rw [getState_putState_ne _ _ _ _ _ hk] at hr
          exact (ih k).1 r hr
        · intro p hp
          rw [getState_putState_ne _ _ _ _ _ hk] at hp
          exact (ih k).2 p hp
    | poke L0 L0' tx0 id0 name0 ptype0 trainer0 location0 power0 hC hok ih =>
      obtain ⟨-, hL⟩ := CreatePokemon_ok_inv L0 L0' tx0 id0 name0 ptype0 trainer0 location0 power0 hok
      subst hL
      intro k
      by_cases hk : k = id0
      · subst hk
        constructor
        · intro r hr
          rw [getState_putState_self] at hr
          simp [marshalPokemon] at hr
        · intro p hp
          rw [getState_putState_self] at hp
          simp only [marshalPokemon, Option.some.injEq, Bytes.pokeBytes.injEq] at hp
          subst hp
          rfl
      · constructor
        · intro r hr
          rw [getState_putState_ne _ _ _ _ _ hk] at hr
          exact (ih k).1 r hr
        · intro p hp
          rw [getState_putState_ne _ _ _ _ _ hk] at hp
          exact (ih k).2 p hp

/-- C9 witness: the ledger created by one CreateLoanApplication call stores
sampleLoan, whose Status is Pending. -/
theorem C9_create_fixes_initial_fields_witness :
    getState loanLedger "loan1" = some (Bytes.loanBytes sampleLoan)
  ∧ sampleLoan.Status = "Pending" := by
  have h := C9_create_fixes_initial_fields emptyLedger loanLedger loanLedger
      "tx1" "loan1" "Afraz" "n" "t" "tr" "loc" 10000 12 0 (11 / 2)
  have h1 := h.1 rfl
  have h2 := (h.2.2 (CreateOnly.loan emptyLedger loanLedger "tx1" "loan1" "Afraz"
      10000 12 (11 / 2) CreateOnly.empty rfl) "loan1").1 sampleLoan h1
  exact ⟨h1, h2⟩

/-- C10: create performs no key validation: any key with no live value,
including the empty string, is accepted, and the record is stored under
exactly that key; with the stub total, the only remaining failure cause of
create is a key that already holds a live value. -/
theorem C10_no_key_validation (L : Ledger)
    (tx id applicant title firstName lastName cnic dob gender mobile : String)
    (amount term : Int) (rate : Float64)
    (hl : LoanExists L id = false) (hi : IdentityExists L id = false) :
    CreateLoanApplication L tx id applicant amount term rate
      = Except.ok (putState L tx id (marshalLoan
          { ID := id, Applicant := applicant, Amount := amount, Term := term,
            InterestRate := rate, Status := "Pending" }))
  ∧ getState (txResult L (CreateLoanApplication L tx id applicant amount term rate)) id
      = some (marshalLoan
          { ID := id, Applicant := applicant, Amount := amount, Term := term,
            InterestRate := rate, Status := "Pending" })
  ∧ CreateIdentity L tx id title firstName lastName cnic dob gender mobile
      = Except.ok (putState L tx id (marshalIdentity
          { ID := id, Title := title, FirstName := firstName, LastName := lastName,
            CNIC := cnic, DateOfBirth := dob, Gender := gender, MobileNumber := mobile }))
  ∧ getState (txResult L (CreateIdentity L tx id title firstName lastName cnic dob gender mobile)) id
      = some (marshalIdentity
          { ID := id, Title := title, FirstName := firstName, LastName := lastName,
            CNIC := cnic, DateOfBirth := dob, Gender := gender, MobileNumber := mobile }) := by
  refine ⟨CreateLoanApplication_ok L tx id applicant amount term rate hl, ?_,
    CreateIdentity_ok L tx id title firstName lastName cnic dob gender mobile hi, ?_⟩
  · rw [CreateLoanApplication_ok L tx id applicant amount term rate hl, txResult_ok]
    exact getState_putState_self _ _ _ _
  · rw [CreateIdentity_ok L tx id title firstName lastName cnic dob gender mobile hi, txResult_ok]
    exact getState_putState_self _ _ _ _

/-- C10 witness: creating under the empty-string key on the empty ledger
succeeds and stores the record under the empty key. -/
theorem C10_no_key_validation_witness :
    CreateLoanApplication emptyLedger "tx1" "" "Afraz" 10000 12 (11 / 2)
      = Except.ok (putState emptyLedger "tx1" "" (marshalLoan
          { ID := "", Applicant := "Afraz", Amount := 10000, Term := 12,
            InterestRate := 11 / 2, Status := "Pending" }))
  ∧ getState (txResult emptyLedger
        (CreateLoanApplication emptyLedger "tx1" "" "Afraz" 10000 12 (11 / 2))) ""
      = some (marshalLoan
          { ID := "", Applicant := "Afraz", Amount := 10000, Term := 12,
            InterestRate := 11 / 2, Status := "Pending" }) := by
  have h := C10_no_key_validation emptyLedger "tx1" "" "Afraz" "Mr." "John" "Doe"
      "12345" "01-01-1980" "Male" "0300" 10000 12 (11 / 2) rfl rfl
  exact ⟨h.1, h.2.1⟩
